import Mathlib

/-!
Shallow embedding of the rental Telegram bot (`src/main.py`).

The bot is a two-flow finite state machine over a per-user conversation
state (aiogram `FSMContext`): a user questionnaire flow
(city → deal type → rooms → listing choice → people → nationality → pets →
income → period → viewing → contact) and an admin listing-creation flow
(city → deal type → rooms → description → link), plus admin list/deactivate
actions.  The listing store is modelled as a list of rows; `SERIAL` ids
increase with creation order, so "most recently created" = largest id.
Message delivery is modelled by recording every outbound send; the
`fail` oracle of the environment says which `bot.send_message` recipient
dispatches raise (those are the sends the source wraps in `try/except`);
`message.answer` replies to the requesting user are recorded directly.
Python exceptions (`KeyError` from `data["k"]`, `ValueError` from
`int(s)`, `AttributeError` from `None.strip()`) are modelled by the
`err` field of a handler result, with all state mutations already
performed before the raise kept, exactly as `FSMContext` keeps them.
-/

/-- Python whitespace test used by `str.strip`, restricted to the usual
ASCII whitespace characters. -/
def isPySpace (c : Char) : Bool :=
  c == ' ' || c == '\t' || c == '\x0a' || c == '\x0d' || c == '\x0b' || c == '\x0c'

/-- `str.strip()` on the underlying character list. -/
def pyStripL (s : List Char) : List Char :=
  ((s.dropWhile isPySpace).reverse.dropWhile isPySpace).reverse

/-- Python `s.strip()`. -/
def pyStrip (s : String) : String :=
  String.mk (pyStripL s.data)

/-- Characters before the first newline: `s.split("\n", 1)[0]`. -/
def firstLineL (s : List Char) : List Char :=
  s.takeWhile (fun c => !(c == '\x0a'))

/-- Python `s.split("\n", 1)[0]`. -/
def firstLine (s : String) : String :=
  String.mk (firstLineL s.data)

/-- Python `s[:n]` (by code points, as in Python). -/
def strTake (s : String) (n : Nat) : String :=
  String.mk (s.data.take n)

/-- Boolean prefix test on character lists (Python `str.startswith`). -/
def isPre : List Char → List Char → Bool
  | [], _ => true
  | _ :: _, [] => false
  | a :: as, b :: bs => a == b && isPre as bs

/-- `callback.data.startswith(tag)` for the `tag:`-style discriminators. -/
def hasTag (tag s : String) : Bool :=
  isPre tag.data s.data

/-- The value part of a callback payload: `callback.data.split(":", 1)[1]`.
Every tag the source uses ends in `:` and has no earlier colon, so under
the `startswith` guard this equals dropping the tag. -/
def tagVal (tag s : String) : String :=
  String.mk (s.data.drop tag.data.length)

/-- Python `int(s)` for the nonnegative decimal listing ids the bot uses;
`none` models the `ValueError` raised on empty or non-numeric input. -/
def pyInt? (s : String) : Option Nat :=
  if s.data ≠ [] ∧ s.data.all (fun c => c.isDigit) then
    some (s.data.foldl (fun a c => a * 10 + (c.toNat - 48)) 0)
  else none

/-- Exceptions the handlers can raise (`data["k"]`, `int(s)`, `None.strip()`). -/
inductive PyErr where
  | keyError
  | valueError
  | attributeError
deriving Repr, DecidableEq

/-- A stored listing row (table `listings`): soft-deactivation only flips
`is_active`, the row is never physically deleted. -/
structure Row where
  id : Nat
  city_code : String
  deal_type : String
  rooms : String
  title : String
  description : String
  link : String
  is_active : Bool
deriving Repr, DecidableEq

/-- The `Listing` dataclass returned by the query helpers (`id=str(row["id"])`). -/
structure Listing where
  id : String
  city_code : String
  deal_type : String
  rooms : String
  title : String
  description : String
  link : String
deriving Repr, DecidableEq

/-- Conversion from a fetched row to the `Listing` dataclass. -/
def rowToListing (r : Row) : Listing :=
  ⟨toString r.id, r.city_code, r.deal_type, r.rooms, r.title, r.description, r.link⟩

/-- `ORDER BY id DESC`: larger (newer `SERIAL`) ids first. -/
def rowOrder : Row → Row → Prop := fun a b => b.id ≤ a.id

instance : DecidableRel rowOrder := fun a b => Nat.decLe b.id a.id

instance : IsTotal Row rowOrder := ⟨fun a b => Nat.le_total b.id a.id⟩

instance : IsTrans Row rowOrder := ⟨fun _ _ _ h1 h2 => Nat.le_trans h2 h1⟩

/-- The `WHERE` clause of `db_get_last_listings`. -/
def rowMatches (c d r : String) (row : Row) : Bool :=
  row.city_code == c && row.deal_type == d && row.rooms == r && row.is_active

/-- `db_get_last_listings`: filter by city, deal type, rooms and the active
flag, order newest first, cap at `limit`. -/
def db_get_last_listings (table : List Row) (c d r : String) (limit : Nat) : List Listing :=
  ((List.insertionSort rowOrder (table.filter (rowMatches c d r))).take limit).map rowToListing

/-- `db_get_last_listings_admin`: active rows only, newest first, cap at `limit`. -/
def db_get_last_listings_admin (table : List Row) (limit : Nat) : List Listing :=
  ((List.insertionSort rowOrder (table.filter (fun row => row.is_active))).take limit).map
    rowToListing

/-- `db_find_listing_by_id`: `int(listing_id)` may raise `ValueError`;
the `SELECT` has no `is_active` condition, so deactivated rows still resolve. -/
def db_find_listing_by_id (table : List Row) (lid : String) : Except PyErr (Option Listing) :=
  match pyInt? lid with
  | none => .error .valueError
  | some n => .ok ((table.find? (fun row => row.id == n)).map rowToListing)

/-- `db_deactivate_listing` applied to an already-parsed id. -/
def deactivateRow (table : List Row) (n : Nat) : List Row :=
  table.map (fun row => if row.id = n then { row with is_active := false } else row)

/-- `SERIAL` id assignment for `db_insert_listing`. -/
def nextId (table : List Row) : Nat :=
  (table.foldr (fun row acc => max row.id acc) 0) + 1

/-- The aiogram FSM step tag: `None` (idle) plus the two `StatesGroup`s
`ApplicationStates` and `AdminAddListingStates`. -/
inductive Step where
  | idle
  | appPeople
  | appNationality
  | appPets
  | appIncome
  | appPeriod
  | appViewing
  | appContact
  | admCity
  | admDealType
  | admRooms
  | admDescription
  | admLink
deriving Repr, DecidableEq

/-- The accumulated `FSMContext` data mapping; `none` = key absent. -/
structure ConvData where
  city_code : Option String
  deal_type : Option String
  rooms : Option String
  listing_id : Option String
  people : Option String
  nationality : Option String
  pets : Option String
  income : Option String
  period : Option String
  viewing : Option String
  phone : Option String
  description : Option String
  link : Option String
deriving Repr, DecidableEq

/-- The empty data mapping. -/
def ConvData.empty : ConvData :=
  ⟨none, none, none, none, none, none, none, none, none, none, none, none, none⟩

/-- One user session's conversation state: step tag plus data. -/
structure ConvState where
  step : Step
  data : ConvData
deriving Repr, DecidableEq

/-- `state.clear()`: step back to `None`, data wiped. -/
def clearedState : ConvState := ⟨.idle, ConvData.empty⟩

/-- The sender of an inbound event (`message.from_user` / `callback.from_user`). -/
structure UserInfo where
  id : Nat
  username : Option String
deriving Repr, DecidableEq

/-- An inbound message: optional text and optional structured contact
(the contact's phone number). -/
structure Msg where
  from_user : UserInfo
  text : Option String
  contact : Option String
deriving Repr, DecidableEq

/-- Outbound destinations: the requesting user (`message.answer` /
`callback.message.answer`), the administrator, the optional work chat, and
the fixed broadcast channel. -/
inductive Dest where
  | user
  | admin
  | workChat
  | channel
deriving Repr, DecidableEq

/-- A recorded outbound send attempt.  `ok` is the delivery outcome
(`false` = the transport raised; the source catches this for the
recipient dispatches it wraps in `try/except`).  `kb` is the attached
reply/inline keyboard, as rows of button labels. -/
structure Send where
  dest : Dest
  text : String
  ok : Bool
  kb : Option (List (List String))
deriving Repr, DecidableEq

/-- Static configuration (environment variables). -/
structure Config where
  admin_user_id : Nat
  notify_chat_id : Int
deriving Repr, DecidableEq

/-- The fixed broadcast channel id (`DOMIX_CHANNEL_ID`), a nonzero constant. -/
def domixChannelId : Int := -1003445716247

/-- The handler environment: configuration, the listing table, whether the
`INSERT` raises (`dbFail`), and which wrapped recipient sends raise (`fail`). -/
structure Env where
  cfg : Config
  db : List Row
  dbFail : Bool
  fail : Dest → Bool

/-- The application record assembled at the terminal step: the exact values
interpolated into the notification text (missing answers print as `"None"`). -/
structure AppRecord where
  listingInfo : String
  listingLink : String
  people : String
  nationality : String
  pets : String
  income : String
  period : String
  viewing : String
  phone : String
  username : String
deriving Repr, DecidableEq

/-- Result of one handler invocation: the session state and listing table
after it, the outbound sends it made in order, the exception it raised if
any (mutations made before the raise are kept, as with `FSMContext`), and,
for the terminal handler, the data snapshot and assembled record. -/
structure HR where
  state : ConvState
  db : List Row
  sends : List Send
  err : Option PyErr
  terminalData : Option ConvData
  record : Option AppRecord

/-- A handler that did nothing observable. -/
def noopHR (env : Env) (s : ConvState) : HR :=
  ⟨s, env.db, [], none, none, none⟩

/-- City button labels (`CITY_LABELS`). -/
def CITY_LABELS : List String :=
  ["Бенидорм", "Аликанте", "Кальпе", "Торревьеха", "Коммерческое"]

/-- Label → city code dictionary (`CITY_CODES`). -/
def CITY_CODES : List (String × String) :=
  [("Бенидорм", "benidorm"), ("Аликанте", "alicante"), ("Кальпе", "calpe"),
   ("Торревьеха", "torrevieja"), ("Коммерческое", "commercial")]

/-- Code → label dictionary (`CITY_LABEL_BY_CODE`), with the `.get` fallback. -/
def cityLabelByCode (code : String) : String :=
  ((CITY_CODES.find? (fun p => p.2 == code)).map (fun p => p.1)).getD code

/-- Deal type labels (`DEAL_TYPES`), with the `.get` fallback. -/
def dealTypeLabel (d : String) : String :=
  if d = "rent" then "Аренда" else if d = "buy" then "Покупка" else d

/-- `build_main_keyboard`: the city reply keyboard, plus the admin row for
the administrator. -/
def build_main_keyboard (is_admin : Bool) : List (List String) :=
  [["Бенидорм", "Аликанте"], ["Кальпе", "Торревьеха"], ["Коммерческое"],
   ["Перезапустить"]] ++
    (if is_admin then [["Добавить объявление", "Просмотреть список объявлений"]] else [])

/-- Greeting sent by the `/start` handler. -/
def greetText : String := "Здравствуйте. Выберите город, в котором ищете объект:"

/-- The `"not found"` placeholder for an unresolvable listing id. -/
def notFoundInfo : String := "Объявление не найдено (id потерян)."

/-- The user-facing "submitted" acknowledgment. -/
def ackText : String := "Спасибо, заявка отправлена. Мы свяжемся с вами в ближайшее время."

/-- `f"{data.get(k)}"`: a missing key prints as `"None"`. -/
def fmtOpt (o : Option String) : String := o.getD "None"

/-- The notification text assembled in `complete_application`. -/
def appText (a : AppRecord) : String :=
  "Новая заявка по объекту:\x0a\x0a" ++
    "Объявление: " ++ a.listingInfo ++ "\x0a" ++
    "Ссылка: " ++ a.listingLink ++ "\x0a\x0a" ++
    "Сколько человек: " ++ a.people ++ "\x0a" ++
    "Национальность: " ++ a.nationality ++ "\x0a" ++
    "Животные: " ++ a.pets ++ "\x0a" ++
    "Подтверждение доходов: " ++ a.income ++ "\x0a" ++
    "Период аренды: " ++ a.period ++ "\x0a" ++
    "Дата/время просмотра: " ++ a.viewing ++ "\x0a" ++
    "Телефон: " ++ a.phone ++ "\x0a\x0a" ++
    "Пользователь: " ++ a.username

/-- `cmd_start`: unconditional `state.clear()`, then the greeting with the
city menu (admin row included for the administrator). -/
def cmd_start (env : Env) (m : Msg) (_s : ConvState) : HR :=
  ⟨clearedState, env.db,
    [⟨.user, greetText, true,
      some (build_main_keyboard (m.from_user.id == env.cfg.admin_user_id))⟩],
    none, none, none⟩

/-- `handle_restart_button`: delegates to `cmd_start`. -/
def handle_restart_button (env : Env) (m : Msg) (s : ConvState) : HR :=
  cmd_start env m s

/-- `handle_city` (guarded by `StateFilter(None)` and a recognized city
label): stores the mapped city code, keeps the step, sends the deal-type
prompt.  A missing dictionary entry would be a `KeyError`. -/
def handle_city (env : Env) (m : Msg) (s : ConvState) : HR :=
  match m.text with
  | none => ⟨s, env.db, [], some .keyError, none, none⟩
  | some label =>
    match CITY_CODES.lookup label with
    | none => ⟨s, env.db, [], some .keyError, none, none⟩
    | some code =>
      ⟨⟨s.step, { s.data with city_code := some code }⟩, env.db,
        [⟨.user, "Город: " ++ label ++ ". Выберите тип: аренда или покупка.", true, none⟩,
         ⟨.user, "Выберите тип сделки:", true, some [["Аренда", "Покупка"]]⟩],
        none, none, none⟩

/-- `handle_type` (`type:` callback, no state filter): stores the deal type,
keeps the step, sends the rooms prompt. -/
def handle_type (env : Env) (cb : String) (s : ConvState) : HR :=
  ⟨⟨s.step, { s.data with deal_type := some (tagVal "type:" cb) }⟩, env.db,
    [⟨.user, "Выберите количество комнат:", true, some [["1", "2", "3+"]]⟩],
    none, none, none⟩

/-- The per-listing presentation text in `handle_rooms`. -/
def listingText (l : Listing) : String :=
  "<b>" ++ l.title ++ "</b>\x0a\x0a" ++ l.description ++
    "\x0a\x0aСсылка на объявление: " ++ l.link

/-- `handle_rooms` (`rooms:` callback, no state filter): stores the rooms
answer, then unconditionally reads `data["city_code"]` and
`data["deal_type"]` (raising `KeyError` when either was never stored),
queries up to 5 recent listings and presents each with its
"start application" button; the step never changes here. -/
def roomsData (cb : String) (s : ConvState) : ConvData :=
  { s.data with rooms := some (tagVal "rooms:" cb) }

def handle_rooms (env : Env) (cb : String) (s : ConvState) : HR :=
  match (roomsData cb s).city_code with
  | none => ⟨⟨s.step, roomsData cb s⟩, env.db, [], some .keyError, none, none⟩
  | some c =>
    match (roomsData cb s).deal_type with
    | none => ⟨⟨s.step, roomsData cb s⟩, env.db, [], some .keyError, none, none⟩
    | some dt =>
      match db_get_last_listings env.db c dt (tagVal "rooms:" cb) 5 with
      | [] =>
        ⟨⟨s.step, roomsData cb s⟩, env.db,
          [⟨.user, "К сожалению, по выбранным фильтрам объявлений пока нет.", true, none⟩],
          none, none, none⟩
      | ls =>
        ⟨⟨s.step, roomsData cb s⟩, env.db,
          ls.map (fun l => ⟨.user, listingText l, true, some [["Связаться по этому объекту"]]⟩),
          none, none, none⟩

/-- `start_application` (`contact:` callback, no state filter): stores the
listing id and enters `ApplicationStates.people` from whatever step the
session was in. -/
def start_application (env : Env) (cb : String) (s : ConvState) : HR :=
  ⟨⟨.appPeople, { s.data with listing_id := some (tagVal "contact:" cb) }⟩, env.db,
    [⟨.user, "Сколько человек будет проживать?", true, some [["1", "2"], ["3–4", "5+"]]⟩],
    none, none, none⟩

/-- `ask_nationality` (`people:` callback in `ApplicationStates.people`). -/
def ask_nationality (env : Env) (cb : String) (s : ConvState) : HR :=
  ⟨⟨.appNationality, { s.data with people := some (tagVal "people:" cb) }⟩, env.db,
    [⟨.user, "Укажите, пожалуйста, национальность (текстом):", true, none⟩],
    none, none, none⟩

/-- `ask_pets` (any message in `ApplicationStates.nationality`): stores the
trimmed free text; a text-less message would hit `None.strip()`. -/
def ask_pets (env : Env) (m : Msg) (s : ConvState) : HR :=
  match m.text with
  | none => ⟨s, env.db, [], some .attributeError, none, none⟩
  | some t =>
    ⟨⟨.appPets, { s.data with nationality := some (pyStrip t) }⟩, env.db,
      [⟨.user, "Есть ли животные?", true, some [["Да", "Нет"]]⟩],
      none, none, none⟩

/-- `ask_income` (`pets:` callback in `ApplicationStates.pets`). -/
def ask_income (env : Env) (cb : String) (s : ConvState) : HR :=
  ⟨⟨.appIncome, { s.data with pets := some (tagVal "pets:" cb) }⟩, env.db,
    [⟨.user, "Можете ли подтвердить доходы?", true, some [["Да", "Нет", "Autónomo"]]⟩],
    none, none, none⟩

/-- `ask_period` (`income:` callback in `ApplicationStates.income`). -/
def ask_period (env : Env) (cb : String) (s : ConvState) : HR :=
  ⟨⟨.appPeriod, { s.data with income := some (tagVal "income:" cb) }⟩, env.db,
    [⟨.user, "На какой срок планируете аренду?", true,
      some [["3–6 месяцев", "6–12 месяцев"], ["12+ месяцев", "Иной вариант"]]⟩],
    none, none, none⟩

/-- `ask_viewing` (`period:` callback in `ApplicationStates.period`). -/
def ask_viewing (env : Env) (cb : String) (s : ConvState) : HR :=
  ⟨⟨.appViewing, { s.data with period := some (tagVal "period:" cb) }⟩, env.db,
    [⟨.user, "Укажите удобную дату и время просмотра (например: 15.12, после 17:00):",
      true, none⟩],
    none, none, none⟩

/-- `ask_contact` (any message in `ApplicationStates.viewing`): stores the
trimmed free text and asks for the phone number. -/
def ask_contact (env : Env) (m : Msg) (s : ConvState) : HR :=
  match m.text with
  | none => ⟨s, env.db, [], some .attributeError, none, none⟩
  | some t =>
    ⟨⟨.appContact, { s.data with viewing := some (pyStrip t) }⟩, env.db,
      [⟨.user, "Отправьте, пожалуйста, номер телефона (кнопкой ниже или просто текстом):",
        true, some [["Отправить контакт"]]⟩],
      none, none, none⟩

/-- `complete_application` (any message in `ApplicationStates.contact`):
stores the phone (structured contact as sent, typed text trimmed, `""` for
neither), snapshots the data, resolves the listing by its stored id
(`"not found"` placeholder when it does not resolve, `ValueError` if the
id is absent or non-numeric), assembles the record, sends it to the
administrator and — if configured nonzero — the work chat, each wrapped in
`try/except`, acknowledges the user, and clears the state. -/
def phoneOf (m : Msg) : String :=
  match m.contact with
  | some ph => ph
  | none =>
    match m.text with
    | some t => pyStrip t
    | none => ""

/-- The data snapshot `data = await state.get_data()` taken after the
phone update. -/
def dataWithPhone (m : Msg) (s : ConvState) : ConvData :=
  { s.data with phone := some (phoneOf m) }

/-- `listing.title`, or the placeholder when the listing did not resolve. -/
def listingInfoOf : Option Listing → String
  | none => notFoundInfo
  | some l => l.title

/-- `listing.link`, or `"-"` when the listing did not resolve. -/
def listingLinkOf : Option Listing → String
  | none => "-"
  | some l => l.link

/-- `f"@{user.username}"`, or the numeric-id fallback. -/
def usernameOf (u : UserInfo) : String :=
  match u.username with
  | some un => "@" ++ un
  | none => "id: " ++ toString u.id

/-- The application record assembled at the terminal step. -/
def mkAppRecord (found : Option Listing) (u : UserInfo) (d1 : ConvData) : AppRecord :=
  ⟨listingInfoOf found, listingLinkOf found, fmtOpt d1.people, fmtOpt d1.nationality,
    fmtOpt d1.pets, fmtOpt d1.income, fmtOpt d1.period, fmtOpt d1.viewing, fmtOpt d1.phone,
    usernameOf u⟩

/-- The optional work-chat dispatch: attempted only when `NOTIFY_CHAT_ID`
is configured nonzero, its failure caught. -/
def workChatSends (env : Env) (text : String) : List Send :=
  if env.cfg.notify_chat_id ≠ 0 then
    [⟨.workChat, "Новая заявка (рабочий чат):\x0a\x0a" ++ text, !env.fail .workChat, none⟩]
  else []

def complete_application (env : Env) (m : Msg) (s : ConvState) : HR :=
  match db_find_listing_by_id env.db ((dataWithPhone m s).listing_id.getD "") with
  | .error e =>
    ⟨⟨s.step, dataWithPhone m s⟩, env.db, [], some e, some (dataWithPhone m s), none⟩
  | .ok found =>
    ⟨clearedState, env.db,
      ⟨.admin, appText (mkAppRecord found m.from_user (dataWithPhone m s)),
        !env.fail .admin, none⟩ ::
        workChatSends env (appText (mkAppRecord found m.from_user (dataWithPhone m s))) ++
          [⟨.user, ackText, true,
            some (build_main_keyboard (m.from_user.id == env.cfg.admin_user_id))⟩],
      none, some (dataWithPhone m s), some (mkAppRecord found m.from_user (dataWithPhone m s))⟩

/-- `admin_add_listing_start`: a non-administrator caller is silently
no-opped; the administrator enters `AdminAddListingStates.city`. -/
def admin_add_listing_start (env : Env) (m : Msg) (s : ConvState) : HR :=
  if m.from_user.id = env.cfg.admin_user_id then
    ⟨⟨.admCity, s.data⟩, env.db,
      [⟨.user, "Выберите город для нового объекта (кнопкой ниже):", true, none⟩],
      none, none, none⟩
  else noopHR env s

/-- `admin_set_city` (message in `AdminAddListingStates.city`): re-prompts
on an unrecognized label, otherwise stores the city code and advances. -/
def admin_set_city (env : Env) (m : Msg) (s : ConvState) : HR :=
  match m.text with
  | none => ⟨s, env.db, [⟨.user, "Пожалуйста, выберите город из списка ниже.", true, none⟩],
      none, none, none⟩
  | some label =>
    if label ∈ CITY_LABELS then
      match CITY_CODES.lookup label with
      | none => ⟨s, env.db, [], some .keyError, none, none⟩
      | some code =>
        ⟨⟨.admDealType, { s.data with city_code := some code }⟩, env.db,
          [⟨.user, "Выберите тип сделки:", true, some [["Аренда", "Покупка"]]⟩],
          none, none, none⟩
    else
      ⟨s, env.db, [⟨.user, "Пожалуйста, выберите город из списка ниже.", true, none⟩],
        none, none, none⟩

/-- `admin_set_deal_type` (`adm_type:` callback in `AdminAddListingStates.deal_type`). -/
def admin_set_deal_type (env : Env) (cb : String) (s : ConvState) : HR :=
  ⟨⟨.admRooms, { s.data with deal_type := some (tagVal "adm_type:" cb) }⟩, env.db,
    [⟨.user, "Выберите количество комнат:", true, some [["1", "2", "3+"]]⟩],
    none, none, none⟩

/-- `admin_set_rooms` (`adm_rooms:` callback in `AdminAddListingStates.rooms`). -/
def admin_set_rooms (env : Env) (cb : String) (s : ConvState) : HR :=
  ⟨⟨.admDescription, { s.data with rooms := some (tagVal "adm_rooms:" cb) }⟩, env.db,
    [⟨.user, "Введите полное описание объекта (любое количество текста):", true, none⟩],
    none, none, none⟩

/-- `admin_set_description` (message in `AdminAddListingStates.description`):
stores the trimmed description and advances. -/
def admin_set_description (env : Env) (m : Msg) (s : ConvState) : HR :=
  match m.text with
  | none => ⟨s, env.db, [], some .attributeError, none, none⟩
  | some t =>
    ⟨⟨.admLink, { s.data with description := some (pyStrip t) }⟩, env.db,
      [⟨.user, "Отправьте ссылку на исходное объявление (канал/группа/сайт):", true, none⟩],
      none, none, none⟩

/-- The automatic title of `admin_save_listing`: first line of the
re-trimmed description, truncated to 80 characters, with a fixed
placeholder for the empty case. -/
def auto_title (descStored : String) : String :=
  if firstLine (pyStrip descStored) = "" then "Объявление"
  else strTake (firstLine (pyStrip descStored)) 80

/-- The channel broadcast text of `admin_save_listing`. -/
def channelText (c dt rm desc link : String) : String :=
  "Новый объект:\x0a\x0a" ++
    "Город: " ++ cityLabelByCode c ++ "\x0a" ++
    "Тип: " ++ dealTypeLabel dt ++ "\x0a" ++
    "Комнат: " ++ rm ++ "\x0a\x0a" ++ desc ++ "\x0a\x0aСсылка: " ++ link

/-- `admin_save_listing` (message in `AdminAddListingStates.link`): stores
the trimmed link, derives the title, inserts the listing (on a storage
failure: generic error message, state cleared, no retry), broadcasts to the
fixed channel best-effort, clears state and confirms. -/
def admin_save_listing (env : Env) (m : Msg) (s : ConvState) : HR :=
  match m.text with
  | none => ⟨s, env.db, [], some .attributeError, none, none⟩
  | some t =>
    match s.data.description, s.data.city_code, s.data.deal_type, s.data.rooms with
    | some descStored, some c, some dt, some rm =>
      if env.dbFail then
        ⟨clearedState, env.db,
          [⟨.user,
            "Произошла ошибка при сохранении объявления. Пожалуйста, сообщите разработчику.",
            true, some (build_main_keyboard (m.from_user.id == env.cfg.admin_user_id))⟩],
          none, none, none⟩
      else
        ⟨clearedState,
          env.db ++
            [⟨nextId env.db, c, dt, rm, auto_title descStored, pyStrip descStored,
              pyStrip t, true⟩],
          [⟨.channel, channelText c dt rm (pyStrip descStored) (pyStrip t),
            !env.fail .channel, none⟩,
           ⟨.user, "Объект добавлен. Он будет показан пользователям по соответствующим фильтрам.",
            true, some (build_main_keyboard (m.from_user.id == env.cfg.admin_user_id))⟩],
          none, none, none⟩
    | _, _, _, _ =>
      ⟨⟨s.step, { s.data with link := some (pyStrip t) }⟩, env.db, [], some .keyError,
        none, none⟩

/-- The admin list-view text for one listing. -/
def adminListingText (l : Listing) : String :=
  "ID: " ++ l.id ++ "\x0aГород: " ++ cityLabelByCode l.city_code ++
    "\x0aТип: " ++ dealTypeLabel l.deal_type ++ "\x0aКомнат: " ++ l.rooms ++
    "\x0aЗаголовок: " ++ l.title ++ "\x0aСсылка: " ++ l.link

/-- `admin_list_listings`: a non-administrator caller is silently no-opped;
the administrator gets up to 20 recent active listings, each with its
per-listing deactivate button; no conversation state is touched. -/
def admin_list_listings (env : Env) (m : Msg) (s : ConvState) : HR :=
  if m.from_user.id = env.cfg.admin_user_id then
    match db_get_last_listings_admin env.db 20 with
    | [] => ⟨s, env.db, [⟨.user, "Активных объявлений сейчас нет.", true, none⟩],
        none, none, none⟩
    | ls => ⟨s, env.db,
        ls.map (fun l => ⟨.user, adminListingText l, true, some [["Удалить из выдачи"]]⟩),
        none, none, none⟩
  else noopHR env s

/-- `admin_delete_listing` (`adm_del:` callback, no state filter): a
non-administrator caller only gets the silent callback acknowledgment (no
message, no state or store change); the administrator soft-deactivates the
listing and gets a confirmation. -/
def admin_delete_listing (env : Env) (u : UserInfo) (cb : String) (s : ConvState) : HR :=
  if u.id = env.cfg.admin_user_id then
    match pyInt? (tagVal "adm_del:" cb) with
    | none => ⟨s, env.db, [], some .valueError, none, none⟩
    | some n =>
      ⟨s, deactivateRow env.db n,
        [⟨.user, "Объявление ID " ++ tagVal "adm_del:" cb ++ " удалено из выдачи.", true, none⟩],
        none, none, none⟩
  else noopHR env s

/-- aiogram `CommandStart()`: the text starts with `/start`. -/
def isStartCmd (t : String) : Bool :=
  isPre "/start".data t.data

/-- Whether the message's text matches the `CommandStart` filter. -/
def msgIsStart (m : Msg) : Bool :=
  match m.text with
  | some t => isStartCmd t
  | none => false

/-- Whether the message's text is one of the given trigger labels. -/
def msgInList (m : Msg) (ts : List String) : Bool :=
  match m.text with
  | some t => decide (t ∈ ts)
  | none => false

/-- The admin add-listing triggers. -/
def addListingTriggers : List String := ["/add_listing", "Добавить объявление"]

/-- The admin list-listings triggers. -/
def listListingsTriggers : List String := ["/list_listings", "Просмотреть список объявлений"]

/-- The message router, in source registration order: `cmd_start`,
`handle_restart_button`, `handle_city` (idle state + recognized city
label), the three state-bound questionnaire message handlers, the admin
triggers and the three state-bound admin message handlers; an event with
no matching handler is silently ignored. -/
def dispatchMessage (env : Env) (m : Msg) (s : ConvState) : HR :=
  if msgIsStart m = true then cmd_start env m s
  else if m.text = some "Перезапустить" then handle_restart_button env m s
  else if s.step = .idle ∧ msgInList m CITY_LABELS = true then handle_city env m s
  else if s.step = .appNationality then ask_pets env m s
  else if s.step = .appViewing then ask_contact env m s
  else if s.step = .appContact then complete_application env m s
  else if msgInList m addListingTriggers = true then admin_add_listing_start env m s
  else if s.step = .admCity then admin_set_city env m s
  else if s.step = .admDescription then admin_set_description env m s
  else if s.step = .admLink then admin_save_listing env m s
  else if msgInList m listListingsTriggers = true then admin_list_listings env m s
  else noopHR env s

/-- The callback router, in source registration order; the first three
discriminators carry no state filter, the questionnaire and admin answer
handlers are state-bound, and `adm_del:` again carries no state filter. -/
def dispatchCallback (env : Env) (u : UserInfo) (cb : String) (s : ConvState) : HR :=
  if hasTag "type:" cb = true then handle_type env cb s
  else if hasTag "rooms:" cb = true then handle_rooms env cb s
  else if hasTag "contact:" cb = true then start_application env cb s
  else if s.step = .appPeople ∧ hasTag "people:" cb = true then ask_nationality env cb s
  else if s.step = .appPets ∧ hasTag "pets:" cb = true then ask_income env cb s
  else if s.step = .appIncome ∧ hasTag "income:" cb = true then ask_period env cb s
  else if s.step = .appPeriod ∧ hasTag "period:" cb = true then ask_viewing env cb s
  else if s.step = .admDealType ∧ hasTag "adm_type:" cb = true then admin_set_deal_type env cb s
  else if s.step = .admRooms ∧ hasTag "adm_rooms:" cb = true then admin_set_rooms env cb s
  else if hasTag "adm_del:" cb = true then admin_delete_listing env u cb s
  else noopHR env s

lemma data_append (a b : String) : (a ++ b).data = a.data ++ b.data := rfl

lemma isPre_append (p r : List Char) : isPre p (p ++ r) = true := by
  induction p with
  | nil => rfl
  | cons a as ih => simp [isPre, ih]

lemma hasTag_append (tag v : String) : hasTag tag (tag ++ v) = true := by
  unfold hasTag
  rw [data_append]
  exact isPre_append tag.data v.data

lemma tagVal_append (tag v : String) : tagVal tag (tag ++ v) = v := by
  unfold tagVal
  rw [data_append, List.drop_left]

lemma isPre_head_ne {a b : Char} (as bs : List Char) (hab : a ≠ b) :
    isPre (a :: as) (b :: bs) = false := by
  simp [isPre, hab]

lemma hasTag_ne_head {a b : Char} (as bs : List Char) (t u : String)
    (hta : t.data = a :: as) (hub : u.data = b :: bs) (hab : a ≠ b) :
    hasTag t u = false := by
  unfold hasTag
  rw [hta, hub]
  exact isPre_head_ne as bs hab

lemma dropWhile_head_false (p : Char → Bool) :
    ∀ (l : List Char) (a : Char) (as : List Char), l.dropWhile p = a :: as → p a = false := by
  intro l
  induction l with
  | nil => intro a as h; simp [List.dropWhile] at h
  | cons b bs ih =>
    intro a as h
    rw [List.dropWhile_cons] at h
    by_cases hb : p b = true
    · rw [if_pos hb] at h
      exact ih a as h
    · rw [if_neg hb] at h
      cases h
      simpa using hb

lemma dropWhile_is_suffix (p : Char → Bool) :
    ∀ (l : List Char), ∃ w, w ++ l.dropWhile p = l := by
  intro l
  induction l with
  | nil => exact ⟨[], rfl⟩
  | cons b bs ih =>
    by_cases hb : p b = true
    · obtain ⟨w, hw⟩ := ih
      exact ⟨b :: w, by simp [List.dropWhile_cons, hb, hw]⟩
    · exact ⟨[], by simp [List.dropWhile_cons, hb]⟩

lemma pyStripL_head_false (s : List Char) (a : Char) (as : List Char)
    (h : pyStripL s = a :: as) : isPySpace a = false := by
  obtain ⟨w, hw⟩ := dropWhile_is_suffix isPySpace (s.dropWhile isPySpace).reverse
  have ht : s.dropWhile isPySpace = pyStripL s ++ w.reverse := by
    have h2 := congrArg List.reverse hw
    rw [List.reverse_append, List.reverse_reverse] at h2
    exact h2.symm
  rw [h] at ht
  exact dropWhile_head_false isPySpace s a (as ++ w.reverse) (by simpa using ht)

lemma firstLineL_ne_nil (s : List Char) (hne : pyStripL s ≠ []) :
    firstLineL (pyStripL s) ≠ [] := by
  match hh : pyStripL s with
  | [] => exact absurd hh hne
  | a :: as =>
    have hsp := pyStripL_head_false s a as hh
    have ha : (!(a == '\x0a')) = true := by
      rcases Bool.eq_false_or_eq_true (a == '\x0a') with h1 | h1
      · exfalso
        have : a = '\x0a' := by simpa using h1
        rw [this] at hsp
        simp [isPySpace] at hsp
      · simp [h1]
    simp [firstLineL, List.takeWhile_cons, ha]

lemma pyStrip_data (s : String) : (pyStrip s).data = pyStripL s.data := rfl

lemma firstLine_pyStrip_ne_empty (s : String) (h : pyStrip s ≠ "") :
    firstLine (pyStrip s) ≠ "" := by
  have hd : pyStripL s.data ≠ [] := by
    intro hnil
    apply h
    show String.mk (pyStripL s.data) = String.mk []
    rw [hnil]
  have := firstLineL_ne_nil s.data hd
  intro hfl
  apply this
  have : (firstLine (pyStrip s)).data = ("" : String).data := by rw [hfl]
  simpa [firstLine, pyStrip_data] using this

lemma hasTag_mismatch (t u v : String) (a b : Char) (as bs : List Char)
    (hta : t.data = a :: as) (hub : u.data = b :: bs) (hab : a ≠ b) :
    hasTag t (u ++ v) = false := by
  unfold hasTag
  rw [data_append, hub, List.cons_append, hta]
  exact isPre_head_ne _ _ hab

/-- The forward edges of the fixed step graph (§4.1): the questionnaire
chain and the admin listing-creation chain. -/
def graphSucc : Step → Option Step
  | .appPeople => some .appNationality
  | .appNationality => some .appPets
  | .appPets => some .appIncome
  | .appIncome => some .appPeriod
  | .appPeriod => some .appViewing
  | .appViewing => some .appContact
  | .admCity => some .admDealType
  | .admDealType => some .admRooms
  | .admRooms => some .admDescription
  | .admDescription => some .admLink
  | _ => none

/-- The transitions one accepted event can make: keep the step, jump to
idle (reset/completion), jump to a flow entry step (`applying:people` via a
start-application action, `admin_add:city` via the admin trigger), or
advance one step forward along the step graph. -/
def stepOk (a b : Step) : Prop :=
  b = a ∨ b = .idle ∨ b = .appPeople ∨ b = .admCity ∨ graphSucc a = some b

/-- Position of a step in the user questionnaire order of §4.1. -/
def questRank : Step → Nat
  | .appPeople => 1
  | .appNationality => 2
  | .appPets => 3
  | .appIncome => 4
  | .appPeriod => 5
  | .appViewing => 6
  | .appContact => 7
  | _ => 0

lemma step_handle_city (env : Env) (m : Msg) (s : ConvState) :
    (handle_city env m s).state.step = s.step := by
  unfold handle_city
  split
  · rfl
  · split <;> rfl

lemma handle_rooms_state (env : Env) (cb : String) (s : ConvState) :
    (handle_rooms env cb s).state = ⟨s.step, roomsData cb s⟩ := by
  unfold handle_rooms
  split
  · rfl
  · split
    · rfl
    · split <;> rfl

lemma step_ask_pets (env : Env) (m : Msg) (s : ConvState) :
    (ask_pets env m s).state.step = .appPets ∨ (ask_pets env m s).state.step = s.step := by
  unfold ask_pets
  split
  · exact Or.inr rfl
  · exact Or.inl rfl

lemma step_ask_contact (env : Env) (m : Msg) (s : ConvState) :
    (ask_contact env m s).state.step = .appContact ∨
      (ask_contact env m s).state.step = s.step := by
  unfold ask_contact
  split
  · exact Or.inr rfl
  · exact Or.inl rfl

lemma step_complete_application (env : Env) (m : Msg) (s : ConvState) :
    (complete_application env m s).state.step = .idle ∨
      (complete_application env m s).state.step = s.step := by
  unfold complete_application
  split
  · exact Or.inr rfl
  · exact Or.inl rfl

lemma complete_application_terminalData (env : Env) (m : Msg) (s : ConvState) :
    (complete_application env m s).terminalData = some (dataWithPhone m s) := by
  unfold complete_application
  split <;> rfl

lemma step_admin_add_listing_start (env : Env) (m : Msg) (s : ConvState) :
    (admin_add_listing_start env m s).state.step = .admCity ∨
      (admin_add_listing_start env m s).state.step = s.step := by
  unfold admin_add_listing_start
  split
  · exact Or.inl rfl
  · exact Or.inr rfl

lemma step_admin_set_city (env : Env) (m : Msg) (s : ConvState) :
    (admin_set_city env m s).state.step = .admDealType ∨
      (admin_set_city env m s).state.step = s.step := by
  unfold admin_set_city
  split
  · exact Or.inr rfl
  · split
    · split
      · exact Or.inr rfl
      · exact Or.inl rfl
    · exact Or.inr rfl

lemma step_admin_set_description (env : Env) (m : Msg) (s : ConvState) :
    (admin_set_description env m s).state.step = .admLink ∨
      (admin_set_description env m s).state.step = s.step := by
  unfold admin_set_description
  split
  · exact Or.inr rfl
  · exact Or.inl rfl

lemma step_admin_save_listing (env : Env) (m : Msg) (s : ConvState) :
    (admin_save_listing env m s).state.step = .idle ∨
      (admin_save_listing env m s).state.step = s.step := by
  unfold admin_save_listing
  split
  · exact Or.inr rfl
  · split
    · split
      · exact Or.inl rfl
      · exact Or.inl rfl
    · exact Or.inr rfl

lemma step_handle_rooms (env : Env) (cb : String) (s : ConvState) :
    (handle_rooms env cb s).state.step = s.step := by
  rw [handle_rooms_state]

lemma step_admin_list_listings (env : Env) (m : Msg) (s : ConvState) :
    (admin_list_listings env m s).state.step = s.step := by
  unfold admin_list_listings
  split
  · split <;> rfl
  · rfl

lemma step_admin_delete_listing (env : Env) (u : UserInfo) (cb : String) (s : ConvState) :
    (admin_delete_listing env u cb s).state.step = s.step := by
  unfold admin_delete_listing
  split
  · split <;> rfl
  · rfl

set_option maxHeartbeats 2000000 in
/-- C5 (amended): for every reachable conversation state the step tag is a
value of the closed `Step` enumeration (idle included), and every accepted
event either keeps the step, advances it one step forward along the fixed
step graph, jumps to idle on reset/completion, or jumps to a flow entry
step — `applying:people` via a start-application action or `admin_add:city`
via the admin add-listing trigger; the two entry jumps are accepted from
any step and may therefore move the step backward. -/
theorem c5_step_transitions (env : Env) (m : Msg) (u : UserInfo) (cb : String)
    (s : ConvState) :
    stepOk s.step (dispatchMessage env m s).state.step ∧
    stepOk s.step (dispatchCallback env u cb s).state.step := by
  refine ⟨?_, ?_⟩
  · unfold dispatchMessage
    split_ifs with h1 h2 h3 h4 h5 h6 h7 h8 h9 h10 h11
    · exact Or.inr (Or.inl rfl)
    · exact Or.inr (Or.inl rfl)
    · rw [step_handle_city]
      exact Or.inl rfl
    · rcases step_ask_pets env m s with h | h
      · rw [h]
        exact Or.inr (Or.inr (Or.inr (Or.inr (by rw [h4]; rfl))))
      · rw [h]
        exact Or.inl rfl
    · rcases step_ask_contact env m s with h | h
      · rw [h]
        exact Or.inr (Or.inr (Or.inr (Or.inr (by rw [h5]; rfl))))
      · rw [h]
        exact Or.inl rfl
    · rcases step_complete_application env m s with h | h
      · rw [h]
        exact Or.inr (Or.inl rfl)
      · rw [h]
        exact Or.inl rfl
    · rcases step_admin_add_listing_start env m s with h | h
      · rw [h]
        exact Or.inr (Or.inr (Or.inr (Or.inl rfl)))
      · rw [h]
        exact Or.inl rfl
    · rcases step_admin_set_city env m s with h | h
      · rw [h]
        exact Or.inr (Or.inr (Or.inr (Or.inr (by rw [h8]; rfl))))
      · rw [h]
        exact Or.inl rfl
    · rcases step_admin_set_description env m s with h | h
      · rw [h]
        exact Or.inr (Or.inr (Or.inr (Or.inr (by rw [h9]; rfl))))
      · rw [h]
        exact Or.inl rfl
    · rcases step_admin_save_listing env m s with h | h
      · rw [h]
        exact Or.inr (Or.inl rfl)
      · rw [h]
        exact Or.inl rfl
    · rw [step_admin_list_listings]
      exact Or.inl rfl
    · exact Or.inl rfl
  · unfold dispatchCallback
    split_ifs with g1 g2 g3 g4 g5 g6 g7 g8 g9 g10
    · exact Or.inl rfl
    · rw [step_handle_rooms]
      exact Or.inl rfl
    · exact Or.inr (Or.inr (Or.inl rfl))
    · exact Or.inr (Or.inr (Or.inr (Or.inr (by rw [g4.1]; rfl))))
    · exact Or.inr (Or.inr (Or.inr (Or.inr (by rw [g5.1]; rfl))))
    · exact Or.inr (Or.inr (Or.inr (Or.inr (by rw [g6.1]; rfl))))
    · exact Or.inr (Or.inr (Or.inr (Or.inr (by rw [g7.1]; rfl))))
    · exact Or.inr (Or.inr (Or.inr (Or.inr (by rw [g8.1]; rfl))))
    · exact Or.inr (Or.inr (Or.inr (Or.inr (by rw [g9.1]; rfl))))
    · rw [step_admin_delete_listing]
      exact Or.inl rfl
    · exact Or.inl rfl

/-- A minimal environment: admin id 100, no work chat, empty store, no failures. -/
def envEmpty : Env := ⟨⟨100, 0⟩, [], false, fun _ => false⟩

/-- C5 (counterexample): the claim that no event moves a session's step
backward fails — in `applying:viewing`, pressing a stale "start
application" inline button (`contact:1`) is accepted (the handler has no
state filter) and moves the step back to `applying:people`, an earlier
questionnaire step. -/
theorem c5_backward_counterexample :
    (dispatchCallback envEmpty ⟨200, none⟩ "contact:1"
        ⟨.appViewing, ConvData.empty⟩).state.step = .appPeople ∧
    questRank .appPeople < questRank .appViewing :=
  ⟨rfl, by decide⟩

/-- C10: `handle_rooms` unconditionally reads `city_code` and `deal_type`
from the session data after storing the rooms answer; it raises `KeyError`
when either was never stored, and completes without raising whenever both
are present. -/
theorem c10_rooms_requires_filters (env : Env) (cb : String) (s : ConvState) :
    ((s.data.city_code = none ∨ s.data.deal_type = none) →
      (handle_rooms env cb s).err = some PyErr.keyError) ∧
    (∀ c dt, s.data.city_code = some c → s.data.deal_type = some dt →
      (handle_rooms env cb s).err = none) := by
  constructor
  · intro h
    unfold handle_rooms
    split
    · rfl
    · rename_i c heq
      have heqc : s.data.city_code = some c := heq
      split
      · rfl
      · rename_i dt heq2
        have heqd : s.data.deal_type = some dt := heq2
        rcases h with h | h
        · rw [h] at heqc
          cases heqc
        · rw [h] at heqd
          cases heqd
  · intro c dt hc hdt
    unfold handle_rooms
    split
    · rename_i heq
      have heqc : s.data.city_code = none := heq
      rw [hc] at heqc
      cases heqc
    · split
      · rename_i heq
        have heqd : s.data.deal_type = none := heq
        rw [hdt] at heqd
        cases heqd
      · split
        · rfl
        · rfl

/-- A session with the city and deal-type filters already stored. -/
def sBoth : ConvState :=
  ⟨.idle, { ConvData.empty with city_code := some "benidorm", deal_type := some "rent" }⟩

theorem c10_witness :
    (handle_rooms envEmpty "rooms:1" clearedState).err = some PyErr.keyError ∧
    (handle_rooms envEmpty "rooms:1" sBoth).err = none :=
  ⟨(c10_rooms_requires_filters envEmpty "rooms:1" clearedState).1 (Or.inl rfl),
   (c10_rooms_requires_filters envEmpty "rooms:1" sBoth).2 "benidorm" "rent" rfl rfl⟩

/-- C9: for a caller whose user id differs from the configured
administrator id, each administrator-only handler (add-listing,
list-listings, per-listing deactivate) is a silent no-op: the state, the
listing store and the outbound sends are all untouched. -/
theorem c9_non_admin_noop (env : Env) (m : Msg) (u : UserInfo) (cb : String) (s : ConvState)
    (hm : m.from_user.id ≠ env.cfg.admin_user_id) (hu : u.id ≠ env.cfg.admin_user_id) :
    admin_add_listing_start env m s = noopHR env s ∧
    admin_list_listings env m s = noopHR env s ∧
    admin_delete_listing env u cb s = noopHR env s ∧
    (noopHR env s).state = s ∧ (noopHR env s).db = env.db ∧ (noopHR env s).sends = [] := by
  refine ⟨?_, ?_, ?_, rfl, rfl, rfl⟩
  · unfold admin_add_listing_start
    rw [if_neg hm]
  · unfold admin_list_listings
    rw [if_neg hm]
  · unfold admin_delete_listing
    rw [if_neg hu]

theorem c9_witness :
    admin_add_listing_start envEmpty ⟨⟨200, none⟩, some "Добавить объявление", none⟩
        clearedState = noopHR envEmpty clearedState ∧
    admin_list_listings envEmpty ⟨⟨200, none⟩, some "Добавить объявление", none⟩
        clearedState = noopHR envEmpty clearedState ∧
    admin_delete_listing envEmpty ⟨200, none⟩ "adm_del:1" clearedState =
      noopHR envEmpty clearedState ∧
    (noopHR envEmpty clearedState).state = clearedState ∧
    (noopHR envEmpty clearedState).db = envEmpty.db ∧
    (noopHR envEmpty clearedState).sends = [] :=
  c9_non_admin_noop envEmpty ⟨⟨200, none⟩, some "Добавить объявление", none⟩ ⟨200, none⟩
    "adm_del:1" clearedState (by decide) (by decide)

/-- C8: the restart trigger is accepted from every step of both flows — the
restart handler is registered before every state-bound handler and carries
no state filter — and handling it is exactly the idle entry point
`cmd_start`: unconditional state clear plus the city-menu greeting. -/
theorem c8_restart_is_idle_entry (env : Env) (s : ConvState) (u : UserInfo)
    (co : Option String) :
    dispatchMessage env ⟨u, some "Перезапустить", co⟩ s =
      cmd_start env ⟨u, some "Перезапустить", co⟩ s ∧
    (cmd_start env ⟨u, some "Перезапустить", co⟩ s).state = clearedState ∧
    (cmd_start env ⟨u, some "Перезапустить", co⟩ s).sends =
      [⟨.user, greetText, true,
        some (build_main_keyboard (u.id == env.cfg.admin_user_id))⟩] := by
  refine ⟨?_, rfl, rfl⟩
  have h1 : msgIsStart (⟨u, some "Перезапустить", co⟩ : Msg) = false := rfl
  unfold dispatchMessage
  rw [h1, if_neg (show ¬(false = true) by decide), if_pos rfl]
  rfl

/-- C7: the derived title is the first line of the trimmed description
truncated to at most 80 characters, the fixed placeholder "Объявление" when
the (trimmed) description is empty; the description
"Уютная квартира\nс видом на море" yields exactly "Уютная квартира"; and
the listing row inserted by `admin_save_listing` carries exactly this
derived title. -/
theorem c7_auto_title (desc : String) :
    (auto_title desc).data.length ≤ 80 ∧
    (pyStrip desc ≠ "" → auto_title desc = strTake (firstLine (pyStrip desc)) 80) ∧
    (pyStrip desc = "" → auto_title desc = "Объявление") ∧
    auto_title "Уютная квартира\x0aс видом на море" = "Уютная квартира" ∧
    (∀ env m s t d c dt rm, m.text = some t → s.data.description = some d →
      s.data.city_code = some c → s.data.deal_type = some dt → s.data.rooms = some rm →
      env.dbFail = false →
      (admin_save_listing env m s).db =
        env.db ++ [⟨nextId env.db, c, dt, rm, auto_title d, pyStrip d, pyStrip t, true⟩]) := by
  refine ⟨?_, ?_, ?_, ?_, ?_⟩
  · unfold auto_title
    split
    · decide
    · show ((firstLine (pyStrip desc)).data.take 80).length ≤ 80
      rw [List.length_take]
      exact min_le_left _ _
  · intro h
    unfold auto_title
    rw [if_neg (firstLine_pyStrip_ne_empty desc h)]
  · intro h
    unfold auto_title
    rw [h]
    rw [if_pos (show firstLine "" = "" from rfl)]
  · decide
  · intro env m s t d c dt rm h1 h2 h3 h4 h5 h6
    simp [admin_save_listing, h1, h2, h3, h4, h5, h6]

/-- The admin environment and session used to exercise the saving step. -/
def sSave : ConvState :=
  ⟨.admLink,
    { ConvData.empty with
        city_code := some "benidorm"
        deal_type := some "rent"
        rooms := some "1"
        description := some "Уютная квартира" }⟩

theorem c7_witness :
    pyStrip "  море  " ≠ "" ∧
    auto_title "  море  " = strTake (firstLine (pyStrip "  море  ")) 80 ∧
    (admin_save_listing envEmpty ⟨⟨100, none⟩, some " l ", none⟩ sSave).db =
      envEmpty.db ++ [⟨nextId envEmpty.db, "benidorm", "rent", "1",
        auto_title "Уютная квартира", pyStrip "Уютная квартира", pyStrip " l ", true⟩] :=
  ⟨by decide, (c7_auto_title "  море  ").2.1 (by decide),
   (c7_auto_title "Уютная квартира").2.2.2.2 envEmpty ⟨⟨100, none⟩, some " l ", none⟩ sSave
     " l " "Уютная квартира" "benidorm" "rent" "1" rfl rfl rfl rfl rfl rfl⟩

/-- C6: the filtered query returns only conversions of stored rows that are
active and match city, deal type and rooms exactly; the underlying row
sequence is ordered newest-id (most-recently-created) first; the result is
capped at the requested limit; the admin view likewise returns only active
rows, ordered and capped; and the two call sites are capped at 5 sends
(user flow) and 20 sends (admin view) respectively. -/
theorem c6_find_recent (table : List Row) (c d r : String) (limit : Nat) :
    (∀ l ∈ db_get_last_listings table c d r limit, ∃ row, row ∈ table ∧
      row.is_active = true ∧ row.city_code = c ∧ row.deal_type = d ∧ row.rooms = r ∧
      l = rowToListing row) ∧
    List.Sorted rowOrder
      ((List.insertionSort rowOrder (table.filter (rowMatches c d r))).take limit) ∧
    (db_get_last_listings table c d r limit).length ≤ limit ∧
    (∀ l ∈ db_get_last_listings_admin table limit, ∃ row, row ∈ table ∧
      row.is_active = true ∧ l = rowToListing row) ∧
    List.Sorted rowOrder
      ((List.insertionSort rowOrder (table.filter (fun row => row.is_active))).take limit) ∧
    (db_get_last_listings_admin table limit).length ≤ limit ∧
    (∀ env cb s, (handle_rooms env cb s).sends.length ≤ 5) ∧
    (∀ env m s, (admin_list_listings env m s).sends.length ≤ 20) := by
  have hlenUser : ∀ (tb : List Row) (cc dd rr : String) (lim : Nat),
      (db_get_last_listings tb cc dd rr lim).length ≤ lim := by
    intro tb cc dd rr lim
    unfold db_get_last_listings
    rw [List.length_map, List.length_take]
    exact min_le_left _ _
  have hlenAdmin : ∀ (tb : List Row) (lim : Nat),
      (db_get_last_listings_admin tb lim).length ≤ lim := by
    intro tb lim
    unfold db_get_last_listings_admin
    rw [List.length_map, List.length_take]
    exact min_le_left _ _
  refine ⟨?_, ?_, hlenUser table c d r limit, ?_, ?_, hlenAdmin table limit, ?_, ?_⟩
  · intro l hl
    unfold db_get_last_listings at hl
    obtain ⟨row, hrow, hconv⟩ := List.mem_map.mp hl
    have hrow2 : row ∈ List.insertionSort rowOrder (table.filter (rowMatches c d r)) :=
      (List.take_sublist _ _).subset hrow
    have hrow3 : row ∈ table.filter (rowMatches c d r) :=
      (List.mem_insertionSort rowOrder).mp hrow2
    obtain ⟨hmem, hmatch⟩ := List.mem_filter.mp hrow3
    refine ⟨row, hmem, ?_, ?_, ?_, ?_, hconv.symm⟩ <;>
      simp only [rowMatches, Bool.and_eq_true, beq_iff_eq] at hmatch <;> tauto
  · exact List.Pairwise.sublist (List.take_sublist _ _)
      (List.sorted_insertionSort rowOrder _)
  · intro l hl
    unfold db_get_last_listings_admin at hl
    obtain ⟨row, hrow, hconv⟩ := List.mem_map.mp hl
    have hrow2 : row ∈ List.insertionSort rowOrder (table.filter (fun row => row.is_active)) :=
      (List.take_sublist _ _).subset hrow
    have hrow3 : row ∈ table.filter (fun row => row.is_active) :=
      (List.mem_insertionSort rowOrder).mp hrow2
    obtain ⟨hmem, hmatch⟩ := List.mem_filter.mp hrow3
    exact ⟨row, hmem, hmatch, hconv.symm⟩
  · exact List.Pairwise.sublist (List.take_sublist _ _)
      (List.sorted_insertionSort rowOrder _)
  · intro env cb s
    unfold handle_rooms
    split
    · simp
    · split
      · simp
      · split
        · simp
        · simp only [List.length_map]
          exact hlenUser _ _ _ _ _
  · intro env m s
    unfold admin_list_listings
    split
    · split
      · simp
      · simp only [List.length_map]
        exact hlenAdmin _ _
    · show ([] : List Send).length ≤ 20
      simp

/-- An active listing row matching the Benidorm/rent/1 filter. -/
def rowActive : Row :=
  ⟨1, "benidorm", "rent", "1", "Квартира", "Описание", "https://example.com/1", true⟩

/-- A one-row listing table. -/
def tblW : List Row := [rowActive]

theorem c6_witness :
    rowToListing rowActive ∈ db_get_last_listings tblW "benidorm" "rent" "1" 5 ∧
    (∃ row, row ∈ tblW ∧ row.is_active = true ∧ row.city_code = "benidorm" ∧
      row.deal_type = "rent" ∧ row.rooms = "1" ∧ rowToListing rowActive = rowToListing row) :=
  ⟨by decide,
   (c6_find_recent tblW "benidorm" "rent" "1" 5).1 (rowToListing rowActive) (by decide)⟩

/-- C3: at the terminal step each recipient dispatch is attempted
independently — for every failure oracle the attempted destination/outcome
sequence is the administrator first, then the work chat exactly when
`NOTIFY_CHAT_ID` is nonzero (each outcome its own oracle value, so one
recipient's failure never prevents the other's attempt) — and the last send
is always the successful "submitted" acknowledgment to the user. -/
theorem c3_independent_dispatch (env : Env) (m : Msg) (s : ConvState) (r : HR)
    (hr : complete_application env m s = r) (hok : r.err = none) :
    r.sends.map (fun x => (x.dest, x.ok)) =
      (Dest.admin, !env.fail .admin) ::
        (if env.cfg.notify_chat_id ≠ 0 then [(Dest.workChat, !env.fail .workChat)] else []) ++
          [(Dest.user, true)] ∧
    r.sends.getLast?.map (fun x => (x.dest, x.text, x.ok)) =
      some (Dest.user, ackText, true) := by
  subst hr
  cases hfind : db_find_listing_by_id env.db ((dataWithPhone m s).listing_id.getD "") with
  | error e =>
    unfold complete_application at hok
    rw [hfind] at hok
    cases hok
  | ok found =>
    unfold complete_application
    rw [hfind]
    by_cases hn : env.cfg.notify_chat_id ≠ 0
    · constructor
      · simp [workChatSends, hn]
      · simp [workChatSends, hn, List.getLast?]
    · constructor
      · simp [workChatSends, hn]
      · simp [workChatSends, hn, List.getLast?]

/-- The environment with a configured work chat. -/
def envNotify : Env := ⟨⟨100, 555⟩, [], false, fun _ => false⟩

/-- A typed-phone terminal message. -/
def msgPhone : Msg := ⟨⟨200, some "ivan"⟩, some " 600123 ", none⟩

/-- A session parked at the terminal contact step with a stored listing id. -/
def sContact : ConvState := ⟨.appContact, { ConvData.empty with listing_id := some "7" }⟩

theorem c3_witness :
    (complete_application envNotify msgPhone sContact).err = none ∧
    ((complete_application envNotify msgPhone sContact).sends.map (fun x => (x.dest, x.ok)) =
      (Dest.admin, !envNotify.fail .admin) ::
        (if envNotify.cfg.notify_chat_id ≠ 0 then
          [(Dest.workChat, !envNotify.fail .workChat)] else []) ++
          [(Dest.user, true)] ∧
     (complete_application envNotify msgPhone sContact).sends.getLast?.map
        (fun x => (x.dest, x.text, x.ok)) = some (Dest.user, ackText, true)) :=
  ⟨rfl, c3_independent_dispatch envNotify msgPhone sContact _ rfl rfl⟩

set_option maxHeartbeats 2000000 in
/-- C4: when the terminal contact handler completes without raising, the
session state is cleared back to idle with no residual fields; and from the
cleared (idle) state no message event can assemble another application
record, so a record is produced at most once per completed conversation. -/
theorem c4_state_cleared (env : Env) (m : Msg) (s : ConvState) (r : HR)
    (hr : complete_application env m s = r) (hok : r.err = none) :
    r.state = clearedState ∧ r.state.step = .idle ∧ r.state.data = ConvData.empty ∧
    (∀ env2 m2, (dispatchMessage env2 m2 clearedState).record = none) := by
  subst hr
  have hstate : (complete_application env m s).state = clearedState := by
    cases hfind : db_find_listing_by_id env.db ((dataWithPhone m s).listing_id.getD "") with
    | error e =>
      unfold complete_application at hok
      rw [hfind] at hok
      cases hok
    | ok found =>
      unfold complete_application
      rw [hfind]
  refine ⟨hstate, by rw [hstate]; rfl, by rw [hstate]; rfl, ?_⟩
  intro env2 m2
  unfold dispatchMessage
  split_ifs with h1 h2 h3 h4 h5 h6 h7 h8 h9 h10 h11
  · rfl
  · rfl
  · unfold handle_city
    split
    · rfl
    · split <;> rfl
  · exact absurd h4 (by decide)
  · exact absurd h5 (by decide)
  · exact absurd h6 (by decide)
  · unfold admin_add_listing_start
    split <;> rfl
  · exact absurd h8 (by decide)
  · exact absurd h9 (by decide)
  · exact absurd h10 (by decide)
  · unfold admin_list_listings
    split
    · split <;> rfl
    · rfl
  · rfl

theorem c4_witness :
    (complete_application envNotify msgPhone sContact).err = none ∧
    ((complete_application envNotify msgPhone sContact).state = clearedState ∧
     (complete_application envNotify msgPhone sContact).state.step = .idle ∧
     (complete_application envNotify msgPhone sContact).state.data = ConvData.empty ∧
     (∀ env2 m2, (dispatchMessage env2 m2 clearedState).record = none)) :=
  ⟨rfl, c4_state_cleared envNotify msgPhone sContact _ rfl rfl⟩

/-- A soft-deactivated row: still stored, only the active flag is false. -/
def rowDeact : Row :=
  ⟨1, "benidorm", "rent", "1", "Квартира у моря", "Описание", "https://example.com/1", false⟩

/-- The store after the listing was deactivated mid-flow. -/
def envDeact : Env := ⟨⟨100, 0⟩, [rowDeact], false, fun _ => false⟩

/-- A terminal-step session whose stored listing id points at the
deactivated row. -/
def sDeact : ConvState := ⟨.appContact, { ConvData.empty with listing_id := some "1" }⟩

/-- C1 (counterexample): the claim that a listing soft-deactivated mid-flow
yields the "not found" placeholder fails — soft-deactivation keeps the row
and the lookup-by-id has no active-flag condition, so the dispatched record
carries the deactivated listing's real title, not the placeholder. -/
theorem c1_counterexample :
    rowDeact.is_active = false ∧
    (complete_application envDeact msgPhone sDeact).err = none ∧
    (complete_application envDeact msgPhone sDeact).record.map AppRecord.listingInfo =
      some "Квартира у моря" ∧
    "Квартира у моря" ≠ notFoundInfo :=
  ⟨rfl, rfl, rfl, by decide⟩

/-- C1 (amended): for a stored numeric listing id the terminal contact
handler always completes without raising and dispatches a record; the
record carries the stored row's title and link whenever a row with that id
is still in the store — whether active or soft-deactivated — and the
"not found" placeholder pair exactly when no row with that id exists. -/
theorem c1_lookup_placeholder (env : Env) (m : Msg) (s : ConvState) (lid : String) (n : Nat)
    (hlid : s.data.listing_id = some lid) (hn : pyInt? lid = some n) :
    (complete_application env m s).err = none ∧
    (complete_application env m s).record.map (fun a => (a.listingInfo, a.listingLink)) =
      some (match env.db.find? (fun row => row.id == n) with
            | some row => (row.title, row.link)
            | none => (notFoundInfo, "-")) := by
  have hl : (dataWithPhone m s).listing_id.getD "" = lid := by
    show (s.data.listing_id).getD "" = lid
    rw [hlid]
    rfl
  have hfind : db_find_listing_by_id env.db ((dataWithPhone m s).listing_id.getD "") =
      .ok ((env.db.find? (fun row => row.id == n)).map rowToListing) := by
    rw [hl]
    unfold db_find_listing_by_id
    rw [hn]
  constructor
  · unfold complete_application
    rw [hfind]
  · unfold complete_application
    rw [hfind]
    cases hrow : env.db.find? (fun row => row.id == n) with
    | none => rfl
    | some row => rfl

theorem c1_witness :
    sDeact.data.listing_id = some "1" ∧ pyInt? "1" = some 1 ∧
    ((complete_application envDeact msgPhone sDeact).err = none ∧
     (complete_application envDeact msgPhone sDeact).record.map
        (fun a => (a.listingInfo, a.listingLink)) =
      some (match envDeact.db.find? (fun row => row.id == 1) with
            | some row => (row.title, row.link)
            | none => (notFoundInfo, "-"))) :=
  ⟨rfl, by decide, c1_lookup_placeholder envDeact msgPhone sDeact "1" 1 rfl (by decide)⟩

lemma nFT : ¬(false = true) := by decide

lemma noTag_type_rooms (v : String) : hasTag "type:" ("rooms:" ++ v) = false :=
  hasTag_mismatch "type:" "rooms:" v 't' 'r' "ype:".data "ooms:".data rfl rfl (by decide)

lemma noTag_type_contact (v : String) : hasTag "type:" ("contact:" ++ v) = false :=
  hasTag_mismatch "type:" "contact:" v 't' 'c' "ype:".data "ontact:".data rfl rfl (by decide)

lemma noTag_rooms_contact (v : String) : hasTag "rooms:" ("contact:" ++ v) = false :=
  hasTag_mismatch "rooms:" "contact:" v 'r' 'c' "ooms:".data "ontact:".data rfl rfl (by decide)

lemma noTag_type_people (v : String) : hasTag "type:" ("people:" ++ v) = false :=
  hasTag_mismatch "type:" "people:" v 't' 'p' "ype:".data "eople:".data rfl rfl (by decide)

lemma noTag_rooms_people (v : String) : hasTag "rooms:" ("people:" ++ v) = false :=
  hasTag_mismatch "rooms:" "people:" v 'r' 'p' "ooms:".data "eople:".data rfl rfl (by decide)

lemma noTag_contact_people (v : String) : hasTag "contact:" ("people:" ++ v) = false :=
  hasTag_mismatch "contact:" "people:" v 'c' 'p' "ontact:".data "eople:".data rfl rfl
    (by decide)

lemma noTag_type_pets (v : String) : hasTag "type:" ("pets:" ++ v) = false :=
  hasTag_mismatch "type:" "pets:" v 't' 'p' "ype:".data "ets:".data rfl rfl (by decide)

lemma noTag_rooms_pets (v : String) : hasTag "rooms:" ("pets:" ++ v) = false :=
  hasTag_mismatch "rooms:" "pets:" v 'r' 'p' "ooms:".data "ets:".data rfl rfl (by decide)

lemma noTag_contact_pets (v : String) : hasTag "contact:" ("pets:" ++ v) = false :=
  hasTag_mismatch "contact:" "pets:" v 'c' 'p' "ontact:".data "ets:".data rfl rfl (by decide)

lemma noTag_type_income (v : String) : hasTag "type:" ("income:" ++ v) = false :=
  hasTag_mismatch "type:" "income:" v 't' 'i' "ype:".data "ncome:".data rfl rfl (by decide)

lemma noTag_rooms_income (v : String) : hasTag "rooms:" ("income:" ++ v) = false :=
  hasTag_mismatch "rooms:" "income:" v 'r' 'i' "ooms:".data "ncome:".data rfl rfl (by decide)

lemma noTag_contact_income (v : String) : hasTag "contact:" ("income:" ++ v) = false :=
  hasTag_mismatch "contact:" "income:" v 'c' 'i' "ontact:".data "ncome:".data rfl rfl
    (by decide)

lemma noTag_type_period (v : String) : hasTag "type:" ("period:" ++ v) = false :=
  hasTag_mismatch "type:" "period:" v 't' 'p' "ype:".data "eriod:".data rfl rfl (by decide)

lemma noTag_rooms_period (v : String) : hasTag "rooms:" ("period:" ++ v) = false :=
  hasTag_mismatch "rooms:" "period:" v 'r' 'p' "ooms:".data "eriod:".data rfl rfl (by decide)

lemma noTag_contact_period (v : String) : hasTag "contact:" ("period:" ++ v) = false :=
  hasTag_mismatch "contact:" "period:" v 'c' 'p' "ontact:".data "eriod:".data rfl rfl
    (by decide)

/-- The state after one message event. -/
def stepMsg (env : Env) (u : UserInfo) (t : String) (s : ConvState) : ConvState :=
  (dispatchMessage env ⟨u, some t, none⟩ s).state

/-- The state after one callback event. -/
def stepCb (env : Env) (u : UserInfo) (cb : String) (s : ConvState) : ConvState :=
  (dispatchCallback env u cb s).state

lemma dispatch_city (env : Env) (u : UserInfo) (label code : String)
    (hcode : CITY_CODES.lookup label = some code) (hlab : label ∈ CITY_LABELS)
    (hstart : isStartCmd label = false) (hres : label ≠ "Перезапустить")
    (s : ConvState) (hs : s.step = .idle) :
    stepMsg env u label s = ⟨s.step, { s.data with city_code := some code }⟩ := by
  simp [stepMsg, dispatchMessage, msgIsStart, msgInList, hstart, hres, hs, hlab,
    handle_city, hcode]

lemma dispatch_type (env : Env) (u : UserInfo) (v : String) (s : ConvState) :
    stepCb env u ("type:" ++ v) s = ⟨s.step, { s.data with deal_type := some v }⟩ := by
  unfold stepCb dispatchCallback
  rw [if_pos (hasTag_append "type:" v)]
  unfold handle_type
  rw [tagVal_append]

lemma dispatch_rooms (env : Env) (u : UserInfo) (v : String) (s : ConvState) :
    stepCb env u ("rooms:" ++ v) s = ⟨s.step, { s.data with rooms := some v }⟩ := by
  unfold stepCb dispatchCallback
  rw [noTag_type_rooms v, if_neg nFT, if_pos (hasTag_append "rooms:" v), handle_rooms_state]
  unfold roomsData
  rw [tagVal_append]

lemma dispatch_contact (env : Env) (u : UserInfo) (v : String) (s : ConvState) :
    stepCb env u ("contact:" ++ v) s = ⟨.appPeople, { s.data with listing_id := some v }⟩ := by
  unfold stepCb dispatchCallback
  rw [noTag_type_contact v, if_neg nFT, noTag_rooms_contact v, if_neg nFT,
    if_pos (hasTag_append "contact:" v)]
  unfold start_application
  rw [tagVal_append]

lemma dispatch_people (env : Env) (u : UserInfo) (v : String) (s : ConvState)
    (hs : s.step = .appPeople) :
    stepCb env u ("people:" ++ v) s = ⟨.appNationality, { s.data with people := some v }⟩ := by
  unfold stepCb dispatchCallback
  rw [noTag_type_people v, if_neg nFT, noTag_rooms_people v, if_neg nFT,
    noTag_contact_people v, if_neg nFT, if_pos ⟨hs, hasTag_append "people:" v⟩]
  unfold ask_nationality
  rw [tagVal_append]

lemma dispatch_pets (env : Env) (u : UserInfo) (v : String) (s : ConvState)
    (hs : s.step = .appPets) :
    stepCb env u ("pets:" ++ v) s = ⟨.appIncome, { s.data with pets := some v }⟩ := by
  unfold stepCb dispatchCallback
  rw [hs, noTag_type_pets v, if_neg nFT, noTag_rooms_pets v, if_neg nFT,
    noTag_contact_pets v, if_neg nFT,
    if_neg (show ¬(Step.appPets = Step.appPeople ∧
      hasTag "people:" ("pets:" ++ v) = true) from fun h => by cases h.1),
    if_pos ⟨rfl, hasTag_append "pets:" v⟩]
  unfold ask_income
  rw [tagVal_append]

lemma dispatch_income (env : Env) (u : UserInfo) (v : String) (s : ConvState)
    (hs : s.step = .appIncome) :
    stepCb env u ("income:" ++ v) s = ⟨.appPeriod, { s.data with income := some v }⟩ := by
  unfold stepCb dispatchCallback
  rw [hs, noTag_type_income v, if_neg nFT, noTag_rooms_income v, if_neg nFT,
    noTag_contact_income v, if_neg nFT,
    if_neg (show ¬(Step.appIncome = Step.appPeople ∧
      hasTag "people:" ("income:" ++ v) = true) from fun h => by cases h.1),
    if_neg (show ¬(Step.appIncome = Step.appPets ∧
      hasTag "pets:" ("income:" ++ v) = true) from fun h => by cases h.1),
    if_pos ⟨rfl, hasTag_append "income:" v⟩]
  unfold ask_period
  rw [tagVal_append]

lemma dispatch_period (env : Env) (u : UserInfo) (v : String) (s : ConvState)
    (hs : s.step = .appPeriod) :
    stepCb env u ("period:" ++ v) s = ⟨.appViewing, { s.data with period := some v }⟩ := by
  unfold stepCb dispatchCallback
  rw [hs, noTag_type_period v, if_neg nFT, noTag_rooms_period v, if_neg nFT,
    noTag_contact_period v, if_neg nFT,
    if_neg (show ¬(Step.appPeriod = Step.appPeople ∧
      hasTag "people:" ("period:" ++ v) = true) from fun h => by cases h.1),
    if_neg (show ¬(Step.appPeriod = Step.appPets ∧
      hasTag "pets:" ("period:" ++ v) = true) from fun h => by cases h.1),
    if_neg (show ¬(Step.appPeriod = Step.appIncome ∧
      hasTag "income:" ("period:" ++ v) = true) from fun h => by cases h.1),
    if_pos ⟨rfl, hasTag_append "period:" v⟩]
  unfold ask_viewing
  rw [tagVal_append]

lemma dispatch_text_nationality (env : Env) (u : UserInfo) (t : String) (s : ConvState)
    (hstart : isStartCmd t = false) (hres : t ≠ "Перезапустить")
    (hs : s.step = .appNationality) :
    stepMsg env u t s = ⟨.appPets, { s.data with nationality := some (pyStrip t) }⟩ := by
  simp [stepMsg, dispatchMessage, msgIsStart, hstart, hres, hs, ask_pets]

lemma dispatch_text_viewing (env : Env) (u : UserInfo) (t : String) (s : ConvState)
    (hstart : isStartCmd t = false) (hres : t ≠ "Перезапустить")
    (hs : s.step = .appViewing) :
    stepMsg env u t s = ⟨.appContact, { s.data with viewing := some (pyStrip t) }⟩ := by
  simp [stepMsg, dispatchMessage, msgIsStart, hstart, hres, hs, ask_contact]

lemma dispatch_text_terminal (env : Env) (u : UserInfo) (t : String) (s : ConvState)
    (hstart : isStartCmd t = false) (hres : t ≠ "Перезапустить")
    (hs : s.step = .appContact) :
    (dispatchMessage env ⟨u, some t, none⟩ s).terminalData =
      some { s.data with phone := some (pyStrip t) } := by
  have hroute : dispatchMessage env ⟨u, some t, none⟩ s =
      complete_application env ⟨u, some t, none⟩ s := by
    simp [dispatchMessage, msgIsStart, hstart, hres, hs]
  rw [hroute, complete_application_terminalData]
  rfl

set_option maxHeartbeats 1000000 in
/-- C2: running a valid questionnaire sequence from a fresh session — city
label, deal-type / rooms / start-application / people choices, free-text
nationality, pets / income / period choices, free-text viewing, and a
typed phone at the terminal step — the conversation data snapshotted by the
terminal handler holds exactly the collected fields: each discrete choice
verbatim, the mapped city code, and the three free texts (nationality,
viewing, phone) trimmed of surrounding whitespace; all other fields are
absent. -/
theorem c2_questionnaire_state (env : Env) (u : UserInfo)
    (label code dt rm lid p natText pv iv prv viewText phoneText : String)
    (hcode : CITY_CODES.lookup label = some code) (hlab : label ∈ CITY_LABELS)
    (hl1 : isStartCmd label = false) (hl2 : label ≠ "Перезапустить")
    (hn1 : isStartCmd natText = false) (hn2 : natText ≠ "Перезапустить")
    (hv1 : isStartCmd viewText = false) (hv2 : viewText ≠ "Перезапустить")
    (hp1 : isStartCmd phoneText = false) (hp2 : phoneText ≠ "Перезапустить") :
    (dispatchMessage env ⟨u, some phoneText, none⟩
      (stepMsg env u viewText
        (stepCb env u ("period:" ++ prv)
          (stepCb env u ("income:" ++ iv)
            (stepCb env u ("pets:" ++ pv)
              (stepMsg env u natText
                (stepCb env u ("people:" ++ p)
                  (stepCb env u ("contact:" ++ lid)
                    (stepCb env u ("rooms:" ++ rm)
                      (stepCb env u ("type:" ++ dt)
                        (stepMsg env u label clearedState))))))))))).terminalData =
      some ⟨some code, some dt, some rm, some lid, some p, some (pyStrip natText), some pv,
        some iv, some prv, some (pyStrip viewText), some (pyStrip phoneText), none, none⟩ := by
  have e1 : stepMsg env u label clearedState =
      ⟨.idle, ⟨some code, none, none, none, none, none, none, none, none, none, none, none,
        none⟩⟩ := by
    rw [dispatch_city env u label code hcode hlab hl1 hl2 clearedState rfl]
    rfl
  have e2 : stepCb env u ("type:" ++ dt)
      ⟨.idle, ⟨some code, none, none, none, none, none, none, none, none, none, none, none,
        none⟩⟩ =
      ⟨.idle, ⟨some code, some dt, none, none, none, none, none, none, none, none, none, none,
        none⟩⟩ := by
    rw [dispatch_type]
  have e3 : stepCb env u ("rooms:" ++ rm)
      ⟨.idle, ⟨some code, some dt, none, none, none, none, none, none, none, none, none, none,
        none⟩⟩ =
      ⟨.idle, ⟨some code, some dt, some rm, none, none, none, none, none, none, none, none,
        none, none⟩⟩ := by
    rw [dispatch_rooms]
  have e4 : stepCb env u ("contact:" ++ lid)
      ⟨.idle, ⟨some code, some dt, some rm, none, none, none, none, none, none, none, none,
        none, none⟩⟩ =
      ⟨.appPeople, ⟨some code, some dt, some rm, some lid, none, none, none, none, none, none,
        none, none, none⟩⟩ := by
    rw [dispatch_contact]
  have e5 : stepCb env u ("people:" ++ p)
      ⟨.appPeople, ⟨some code, some dt, some rm, some lid, none, none, none, none, none, none,
        none, none, none⟩⟩ =
      ⟨.appNationality, ⟨some code, some dt, some rm, some lid, some p, none, none, none, none,
        none, none, none, none⟩⟩ := by
    rw [dispatch_people _ _ _ _ rfl]
  have e6 : stepMsg env u natText
      ⟨.appNationality, ⟨some code, some dt, some rm, some lid, some p, none, none, none, none,
        none, none, none, none⟩⟩ =
      ⟨.appPets, ⟨some code, some dt, some rm, some lid, some p, some (pyStrip natText), none,
        none, none, none, none, none, none⟩⟩ := by
    rw [dispatch_text_nationality _ _ _ _ hn1 hn2 rfl]
  have e7 : stepCb env u ("pets:" ++ pv)
      ⟨.appPets, ⟨some code, some dt, some rm, some lid, some p, some (pyStrip natText), none,
        none, none, none, none, none, none⟩⟩ =
      ⟨.appIncome, ⟨some code, some dt, some rm, some lid, some p, some (pyStrip natText),
        some pv, none, none, none, none, none, none⟩⟩ := by
    rw [dispatch_pets _ _ _ _ rfl]
  have e8 : stepCb env u ("income:" ++ iv)
      ⟨.appIncome, ⟨some code, some dt, some rm, some lid, some p, some (pyStrip natText),
        some pv, none, none, none, none, none, none⟩⟩ =
      ⟨.appPeriod, ⟨some code, some dt, some rm, some lid, some p, some (pyStrip natText),
        some pv, some iv, none, none, none, none, none⟩⟩ := by
    rw [dispatch_income _ _ _ _ rfl]
  have e9 : stepCb env u ("period:" ++ prv)
      ⟨.appPeriod, ⟨some code, some dt, some rm, some lid, some p, some (pyStrip natText),
        some pv, some iv, none, none, none, none, none⟩⟩ =
      ⟨.appViewing, ⟨some code, some dt, some rm, some lid, some p, some (pyStrip natText),
        some pv, some iv, some prv, none, none, none, none⟩⟩ := by
    rw [dispatch_period _ _ _ _ rfl]
  have e10 : stepMsg env u viewText
      ⟨.appViewing, ⟨some code, some dt, some rm, some lid, some p, some (pyStrip natText),
        some pv, some iv, some prv, none, none, none, none⟩⟩ =
      ⟨.appContact, ⟨some code, some dt, some rm, some lid, some p, some (pyStrip natText),
        some pv, some iv, some prv, some (pyStrip viewText), none, none, none⟩⟩ := by
    rw [dispatch_text_viewing _ _ _ _ hv1 hv2 rfl]
  rw [e1, e2, e3, e4, e5, e6, e7, e8, e9, e10,
    dispatch_text_terminal _ _ _ _ hp1 hp2 rfl]

theorem c2_witness :
    CITY_CODES.lookup "Бенидорм" = some "benidorm" ∧
    "Бенидорм" ∈ CITY_LABELS ∧
    isStartCmd "Бенидорм" = false ∧ "Бенидорм" ≠ "Перезапустить" ∧
    isStartCmd " Русская " = false ∧ " Русская " ≠ "Перезапустить" ∧
    isStartCmd " 15.12, после 17:00 " = false ∧ " 15.12, после 17:00 " ≠ "Перезапустить" ∧
    isStartCmd " +34 600 111 222 " = false ∧ " +34 600 111 222 " ≠ "Перезапустить" ∧
    (dispatchMessage envEmpty ⟨⟨200, some "ivan"⟩, some " +34 600 111 222 ", none⟩
      (stepMsg envEmpty ⟨200, some "ivan"⟩ " 15.12, после 17:00 "
        (stepCb envEmpty ⟨200, some "ivan"⟩ ("period:" ++ "12+")
          (stepCb envEmpty ⟨200, some "ivan"⟩ ("income:" ++ "yes")
            (stepCb envEmpty ⟨200, some "ivan"⟩ ("pets:" ++ "no")
              (stepMsg envEmpty ⟨200, some "ivan"⟩ " Русская "
                (stepCb envEmpty ⟨200, some "ivan"⟩ ("people:" ++ "2")
                  (stepCb envEmpty ⟨200, some "ivan"⟩ ("contact:" ++ "7")
                    (stepCb envEmpty ⟨200, some "ivan"⟩ ("rooms:" ++ "1")
                      (stepCb envEmpty ⟨200, some "ivan"⟩ ("type:" ++ "rent")
                        (stepMsg envEmpty ⟨200, some "ivan"⟩ "Бенидорм"
                          clearedState))))))))))).terminalData =
      some ⟨some "benidorm", some "rent", some "1", some "7", some "2",
        some (pyStrip " Русская "), some "no", some "yes", some "12+",
        some (pyStrip " 15.12, после 17:00 "), some (pyStrip " +34 600 111 222 "),
        none, none⟩ :=
  ⟨rfl, by decide, rfl, by decide, rfl, by decide, rfl, by decide, rfl, by decide,
   c2_questionnaire_state envEmpty ⟨200, some "ivan"⟩ "Бенидорм" "benidorm" "rent" "1" "7"
     "2" " Русская " "no" "yes" "12+" " 15.12, после 17:00 " " +34 600 111 222 "
     rfl (by decide) rfl (by decide) rfl (by decide) rfl (by decide) rfl (by decide)⟩
